import Mathlib

/-!
Shallow embedding of the AI-dispatch layer of the clipboard_ai repository
(file src/core/ai_interface.py and the AIWorker of src/ui/main_window.py),
together with theorems settling the specification claims about it.

External effects (the hosted OpenAI client call, the aiohttp POST to the
local Ollama server, and the Python json.loads function) are modelled as an
environment of oracles; the code of the repository itself is translated
line-by-line into total Lean functions, with Python exceptions made
explicit as Except values and the network calls a function performs
recorded in an observable log.
-/

namespace ClipboardAI

/-- Constant PROMPT_IMAGE from core/ai_interface.py line 9. -/
def PROMPT_IMAGE : String := "解释此图:"

/-- Constant PROMPT_TEXT from core/ai_interface.py line 10. -/
def PROMPT_TEXT : String := "翻译并解释以下内容:"

/-- A JSON value, as produced by the Python json.loads function. -/
inductive Json where
  | str (s : String)
  | num (n : Int)
  | bool (b : Bool)
  | null
  | arr (xs : List Json)
  | obj (fields : List (String × Json))

/-- Whether a JSON value is a plain string. -/
def Json.isStr : Json → Bool
  | .str _ => true
  | _ => false

/-- One structured content part of a chat message. The constructor
`imageUrl url` models the Python dict
`\x7b"type": "image_url", "image_url": \x7b"url": url\x7d\x7d`
built at core/ai_interface.py line 60. -/
inductive ContentPart where
  | imageUrl (url : String)

/-- Content field of a chat message: either a plain string or a list of
structured content parts. -/
inductive MsgContent where
  | text (s : String)
  | parts (ps : List ContentPart)

/-- One chat message `\x7b"role": ..., "content": ...\x7d`. -/
structure ChatMessage where
  role : String
  content : MsgContent

/-- A configuration record as stored in `self.current_config`: a dict with
keys `type`, `model`, `api_key` and `other_settings` (itself a string-keyed
dict, modelled as an association list). -/
structure Config where
  type : String
  model : String
  api_key : String
  other_settings : List (String × String)

/-- Python `d.get(key, dflt)` on a string-valued dict. -/
def dictGet (d : List (String × String)) (key dflt : String) : String :=
  match d.find? (fun kv => kv.fst == key) with
  | some kv => kv.snd
  | none => dflt

/-- JSON payload built by `send_to_ollama`
(core/ai_interface.py lines 83-91). Here `images = none` means the
`images` key is absent from the dict. -/
structure OllamaPayload where
  model : String
  stream : Bool
  prompt : String
  images : Option (List String)

/-- An HTTP response as observed by `send_to_ollama`: the status code and
the body text. -/
structure HttpResponse where
  status : Nat
  text : String

/-- Network calls a dispatch performs, recorded for observation:
the hosted `chat.completions.create` call and the POST to the local
server. -/
inductive NetCall where
  | openaiCreate (model : String) (messages : List ChatMessage)
  | ollamaPost (url : String) (payload : OllamaPayload)

/-- The external world: the hosted OpenAI client call (returning
`choices[0].message.content`, or the exception it raises), the HTTP POST to
the local server (returning the response, or the exception aiohttp raises),
and the Python json.loads function (returning the parsed value, or the
JSONDecodeError it raises). Each `.error` carries the Python `str(e)` of
the raised exception. -/
structure Env where
  openaiCall : String → List ChatMessage → Except String String
  ollamaPost : String → OllamaPayload → Except String HttpResponse
  jsonLoads : String → Except String Json

/-- Message list built by `send_to_openai`
(core/ai_interface.py lines 43-62): a fixed system message, a user message
(the prompt alone for an image request, otherwise
`prompt ++ "\n\n" ++ content`), and, for an image request, a further user
message carrying the single image part with the base64 data URI. -/
def buildOpenAIMessages (content prompt : String) : List ChatMessage :=
  let systemMessage : ChatMessage := ⟨"system", .text "You are a helpful assistant."⟩
  let userMessage : ChatMessage :=
    if prompt = PROMPT_IMAGE then ⟨"user", .text prompt⟩
    else ⟨"user", .text (prompt ++ "\n\n" ++ content)⟩
  let messages := [systemMessage, userMessage]
  if prompt = PROMPT_IMAGE then
    messages ++ [⟨"user", .parts [.imageUrl ("data:image/jpeg;base64," ++ content)]⟩]
  else
    messages

/-- Function `send_to_openai` (core/ai_interface.py lines 41-73): builds
the message list, invokes the hosted client and returns its text, catching
any exception of the call and returning the string
`"Error communicating with OpenAI: " ++ str(e)` instead — this adapter
never lets an exception escape. The performed call is logged. -/
def send_to_openai (env : Env) (cfg : Config) (content prompt : String) :
    String × List NetCall :=
  let messages := buildOpenAIMessages content prompt
  match env.openaiCall cfg.model messages with
  | .ok text => (text, [.openaiCreate cfg.model messages])
  | .error e => ("Error communicating with OpenAI: " ++ e, [.openaiCreate cfg.model messages])

/-- Payload built at core/ai_interface.py lines 83-91:
`prompt ++ "\n\n" ++ content` without images, overwritten for an image
request by the prompt alone plus `images = [content]`. -/
def buildOllamaPayload (model content prompt : String) : OllamaPayload :=
  if prompt = PROMPT_IMAGE then
    { model := model, stream := false, prompt := prompt, images := some [content] }
  else
    { model := model, stream := false, prompt := prompt ++ "\n\n" ++ content, images := none }

/-- Python `result[key]` on a parsed JSON value (core/ai_interface.py
line 110): on a dict, the value at `key`, or a KeyError whose str form is
the key wrapped in single quotes; on a non-dict, a TypeError (whose exact
Python message depends on the value; no theorem relies on it). -/
def pySubscript (j : Json) (key : String) : Except String Json :=
  match j with
  | .obj fields =>
    match fields.find? (fun kv => kv.fst == key) with
    | some kv => .ok kv.snd
    | none => .error ("\x27" ++ key ++ "\x27")
  | _ => .error "TypeError: value is not subscriptable"

/-- Function `send_to_ollama` (core/ai_interface.py lines 76-112): builds
the URL from `other_settings.get("api_url", "http://localhost:11434") ++
"/api/generate"` and the payload, POSTs once, and on status 200 parses the
body and extracts `result["response"]`; a non-200 status raises
`Exception("Ollama API error: " ++ status)`. Raised exceptions (from
aiohttp, json.loads, or the subscript) are the `.error` branch — this
function does not catch them. -/
def send_to_ollama (env : Env) (cfg : Config) (content prompt : String) :
    Except String Json × List NetCall :=
  let url := dictGet cfg.other_settings "api_url" "http://localhost:11434" ++ "/api/generate"
  let payload := buildOllamaPayload cfg.model content prompt
  let log := [NetCall.ollamaPost url payload]
  match env.ollamaPost url payload with
  | .error e => (.error e, log)
  | .ok resp =>
    if resp.status = 200 then
      match env.jsonLoads resp.text with
      | .error e => (.error e, log)
      | .ok result =>
        match pySubscript result "response" with
        | .ok v => (.ok v, log)
        | .error e => (.error e, log)
    else
      (.error ("Ollama API error: " ++ toString resp.status), log)

/-- Function `send_to_ai` (core/ai_interface.py lines 23-39), the
dispatcher: with no configuration it returns "No AI model selected" without
calling anything; otherwise it selects the adapter by `type` and wraps the
adapter call in try/except, returning `str(e)` for any exception — so it is
total: the result is always a plain returned value, never an exception. -/
def send_to_ai (env : Env) (cfg : Option Config) (content prompt : String) :
    Json × List NetCall :=
  match cfg with
  | none => (.str "No AI model selected", [])
  | some c =>
    if c.type = "openai" then
      match send_to_openai env c content prompt with
      | (r, log) => (.str r, log)
    else if c.type = "ollama" then
      match send_to_ollama env c content prompt with
      | (.ok v, log) => (v, log)
      | (.error e, log) => (.str e, log)
    else
      (.str "Unsupported AI model type", [])

/-- Signals an AIWorker emits (ui/main_window.py lines 22-48):
`finished(response, processing_time)` or `error(message)`. Times are the
wall-clock readings of the worker, modelled as integers. -/
inductive WorkerEvent where
  | finished (response : Json) (processingTime : Int)
  | error (msg : String)

/-- Body of `AIWorker.run` (ui/main_window.py lines 34-48) over the
outcome of `loop.run_until_complete(send_to_ai(...))`: if the call returns
a value, emit `finished(value, end_time - start_time)`; if it raises, emit
`error(str(e))`. -/
def workerRun (outcome : Except String Json) (startTime endTime : Int) : List WorkerEvent :=
  match outcome with
  | .ok response => [.finished response (endTime - startTime)]
  | .error e => [.error e]

/-- An `AIWorker.run` wrapping an actual dispatch: `send_to_ai` is total
(its own try/except converts every adapter exception into a returned
string), so the awaited coroutine completes normally and the try branch of
`run` emits `finished`. -/
def workerDispatch (env : Env) (cfg : Option Config) (content prompt : String)
    (startTime endTime : Int) : List WorkerEvent :=
  workerRun (.ok (send_to_ai env cfg content prompt).fst) startTime endTime

/-- Number of `finished` signals a run emitted. -/
def countFinished : List WorkerEvent → Nat
  | [] => 0
  | .finished _ _ :: rest => countFinished rest + 1
  | .error _ :: rest => countFinished rest

/-- Number of `error` signals a run emitted. -/
def countError : List WorkerEvent → Nat
  | [] => 0
  | .finished _ _ :: rest => countError rest
  | .error _ :: rest => countError rest + 1

/-- Number of structured image content items in a part list. -/
def countPartImageItems : List ContentPart → Nat
  | [] => 0
  | .imageUrl _ :: rest => countPartImageItems rest + 1

/-- Number of structured image content items across a message list. -/
def countImageItems : List ChatMessage → Nat
  | [] => 0
  | m :: rest =>
    (match m.content with
     | .text _ => 0
     | .parts ps => countPartImageItems ps) + countImageItems rest

/-- Standard base64 alphabet. -/
def base64Alphabet : List Char :=
  "ABCDEFGHIJKLMNOPQRSTUVWXYZabcdefghijklmnopqrstuvwxyz0123456789+/".toList

/-- Base64 digit for a 6-bit value. -/
def b64Char (n : Nat) : Char := base64Alphabet.getD (n % 64) 'A'

/-- Standard base64 of a byte sequence, as `base64.b64encode` computes it
(ui/main_window.py line 283 encodes the image bytes with it before they are
handed to the adapters as `content`). -/
def base64Encode : List Nat → String
  | [] => ""
  | [a] =>
    let n := a * 65536
    String.mk [b64Char (n / 262144), b64Char (n / 4096 % 64)] ++ "=="
  | [a, b] =>
    let n := a * 65536 + b * 256
    String.mk [b64Char (n / 262144), b64Char (n / 4096 % 64), b64Char (n / 64 % 64)] ++ "="
  | a :: b :: c :: rest =>
    let n := a * 65536 + b * 256 + c
    String.mk [b64Char (n / 262144), b64Char (n / 4096 % 64), b64Char (n / 64 % 64),
      b64Char (n % 64)] ++ base64Encode rest

/-- Helper: whatever the environment answers, `send_to_ollama` performs
exactly the one logged POST, to the configured URL with the built
payload. -/
theorem send_to_ollama_log (env : Env) (c : Config) (content prompt : String) :
    (send_to_ollama env c content prompt).snd =
      [NetCall.ollamaPost
        (dictGet c.other_settings "api_url" "http://localhost:11434" ++ "/api/generate")
        (buildOllamaPayload c.model content prompt)] := by
  simp only [send_to_ollama]
  split
  · rfl
  · split
    · split
      · rfl
      · split <;> rfl
    · rfl

/-- Helper: for an ollama-typed configuration, the dispatcher forwards to
`send_to_ollama`, keeping its log and converting a raised exception into
the returned message string. -/
theorem send_to_ai_ollama (env : Env) (c : Config) (content prompt : String)
    (hty : c.type = "ollama") :
    send_to_ai env (some c) content prompt =
      (match (send_to_ollama env c content prompt).fst with
        | .ok v => v
        | .error e => .str e,
       (send_to_ollama env c content prompt).snd) := by
  simp only [send_to_ai]
  rw [hty, if_neg (by decide), if_pos rfl]
  rcases h : send_to_ollama env c content prompt with ⟨r, log⟩
  rcases r with e | v <;> rfl

/-- Helper: for an openai-typed configuration, the dispatcher forwards to
`send_to_openai`, wrapping its returned string. -/
theorem send_to_ai_openai (env : Env) (c : Config) (content prompt : String)
    (hty : c.type = "openai") :
    send_to_ai env (some c) content prompt =
      (.str (send_to_openai env c content prompt).fst,
       (send_to_openai env c content prompt).snd) := by
  simp only [send_to_ai]
  rw [hty, if_pos rfl]

/-- C2: for every dispatch invoked while the configuration is absent, the
result is the fixed failure message "No AI model selected" (the wording the
code gives the no-backend-selected Config failure) and the network-call log
is empty: no adapter is invoked and no network I/O is attempted, whatever
the environment would have answered. -/
theorem spec_C2_absent_config (env : Env) (content prompt : String) :
    send_to_ai env none content prompt = (.str "No AI model selected", []) := rfl

/-- C9: one worker run emits exactly one completion signal: for every
outcome of the wrapped dispatch call and every pair of clock readings, the
counts of finished and error signals sum to one — never zero, never both;
moreover a run wrapping an actual dispatch emits exactly the single
finished signal carrying the dispatch result and the elapsed time. -/
theorem spec_C9_exactly_one_callback (o : Except String Json) (t0 t1 : Int)
    (env : Env) (cfg : Option Config) (content prompt : String) :
    countFinished (workerRun o t0 t1) + countError (workerRun o t0 t1) = 1 ∧
    workerDispatch env cfg content prompt t0 t1 =
      [.finished (send_to_ai env cfg content prompt).fst (t1 - t0)] := by
  constructor
  · cases o <;> rfl
  · rfl

/-- C3: the hosted adapter builds the message list as the fixed system
message, then a user message whose content is the instruction alone for an
image request and the instruction followed by the clip content for a text
request; an image request appends exactly one structured image content
item, carried in a separate user-role message, whose data URI payload is
the base64 of the input bytes — the text user message of an image request
is exactly the instruction, the payload never concatenated into it — and a
text request carries no image item. -/
theorem spec_C3_openai_messages (imgBytes : List Nat) (content : String) :
    buildOpenAIMessages (base64Encode imgBytes) PROMPT_IMAGE =
      [⟨"system", .text "You are a helpful assistant."⟩,
       ⟨"user", .text PROMPT_IMAGE⟩,
       ⟨"user", .parts [.imageUrl ("data:image/jpeg;base64," ++ base64Encode imgBytes)]⟩] ∧
    countImageItems (buildOpenAIMessages (base64Encode imgBytes) PROMPT_IMAGE) = 1 ∧
    buildOpenAIMessages content PROMPT_TEXT =
      [⟨"system", .text "You are a helpful assistant."⟩,
       ⟨"user", .text (PROMPT_TEXT ++ "\n\n" ++ content)⟩] ∧
    countImageItems (buildOpenAIMessages content PROMPT_TEXT) = 0 := by
  refine ⟨?_, ?_, ?_, ?_⟩ <;>
    simp [buildOpenAIMessages, countImageItems, countPartImageItems, PROMPT_IMAGE, PROMPT_TEXT]

/-- C1: the dispatcher is the final catch boundary: its result type has no
exception channel at all (the try/except of `send_to_ai` makes it total),
and when the local adapter call raises an exception `e` — the local adapter
does not normalize its own exceptions — the dispatcher catches it and
returns the normal value `str(e)` to its caller. -/
theorem spec_C1_dispatcher_catches (env : Env) (c : Config) (content prompt e : String)
    (hty : c.type = "ollama")
    (hadapter : (send_to_ollama env c content prompt).fst = .error e) :
    (send_to_ai env (some c) content prompt).fst = .str e := by
  rw [send_to_ai_ollama env c content prompt hty, hadapter]

/-- Environment for the C1 witness: the POST raises "boom". -/
def envC1 : Env :=
  { openaiCall := fun _ _ => .error "unused"
    ollamaPost := fun _ _ => .error "boom"
    jsonLoads := fun _ => .error "unused" }

/-- Concrete ollama configuration for the C1 witness. -/
def cfgC1 : Config := ⟨"ollama", "llama3", "", []⟩

/-- C1 witness: with a configuration whose POST raises "boom", the
dispatcher returns the plain value `str "boom"`. -/
theorem spec_C1_witness :
    (send_to_ai envC1 (some cfgC1) "hi" "p").fst = .str "boom" :=
  spec_C1_dispatcher_catches envC1 cfgC1 "hi" "p" "boom" rfl rfl

/-- C4: for every ollama configuration the dispatcher performs exactly one
POST, to `<endpoint>/api/generate` with the endpoint defaulting to
http://localhost:11434 when `other_settings` has no api_url key, carrying
the non-streaming (`stream = false`) payload: for a text request
`prompt = instruction ++ "\n\n" ++ content` with the images key absent, and
for an image request the instruction alone as prompt with
`images = [base64 of the input bytes]`. -/
theorem spec_C4_ollama_request (env : Env) (c : Config) (content : String)
    (imgBytes : List Nat) (hty : c.type = "ollama") :
    (send_to_ai env (some c) content PROMPT_TEXT).snd =
      [NetCall.ollamaPost
        (dictGet c.other_settings "api_url" "http://localhost:11434" ++ "/api/generate")
        ⟨c.model, false, PROMPT_TEXT ++ "\n\n" ++ content, none⟩] ∧
    (send_to_ai env (some c) (base64Encode imgBytes) PROMPT_IMAGE).snd =
      [NetCall.ollamaPost
        (dictGet c.other_settings "api_url" "http://localhost:11434" ++ "/api/generate")
        ⟨c.model, false, PROMPT_IMAGE, some [base64Encode imgBytes]⟩] ∧
    (c.other_settings.find? (fun kv => kv.fst == "api_url") = none →
      dictGet c.other_settings "api_url" "http://localhost:11434" ++ "/api/generate" =
        "http://localhost:11434/api/generate") := by
  refine ⟨?_, ?_, ?_⟩
  · rw [send_to_ai_ollama env c content PROMPT_TEXT hty, send_to_ollama_log]
    simp [buildOllamaPayload, PROMPT_IMAGE, PROMPT_TEXT]
  · rw [send_to_ai_ollama env c (base64Encode imgBytes) PROMPT_IMAGE hty, send_to_ollama_log]
    simp [buildOllamaPayload]
  · intro h
    simp [dictGet, h]

/-- Environment for the C4 witness. -/
def envC4 : Env :=
  { openaiCall := fun _ _ => .error "unused"
    ollamaPost := fun _ _ => .ok ⟨200, "\x7b\"response\":\"ok\"\x7d"⟩
    jsonLoads := fun _ => .ok (.obj [("response", .str "ok")]) }

/-- Concrete ollama configuration for the C4 witness, with no api_url
override. -/
def cfgC4 : Config := ⟨"ollama", "llava", "", []⟩

/-- C4 witness: concrete text and image requests against a configuration
without an endpoint override produce exactly the expected single POST. -/
theorem spec_C4_witness :
    (send_to_ai envC4 (some cfgC4) "hello" PROMPT_TEXT).snd =
      [NetCall.ollamaPost "http://localhost:11434/api/generate"
        ⟨"llava", false, PROMPT_TEXT ++ "\n\n" ++ "hello", none⟩] ∧
    (send_to_ai envC4 (some cfgC4) (base64Encode [1, 2, 3]) PROMPT_IMAGE).snd =
      [NetCall.ollamaPost "http://localhost:11434/api/generate"
        ⟨"llava", false, PROMPT_IMAGE, some [base64Encode [1, 2, 3]]⟩] ∧
    dictGet cfgC4.other_settings "api_url" "http://localhost:11434" ++ "/api/generate" =
      "http://localhost:11434/api/generate" :=
  ⟨(spec_C4_ollama_request envC4 cfgC4 "hello" [1, 2, 3] rfl).1,
   (spec_C4_ollama_request envC4 cfgC4 "hello" [1, 2, 3] rfl).2.1,
   (spec_C4_ollama_request envC4 cfgC4 "hello" [1, 2, 3] rfl).2.2 rfl⟩

/-- C5: for every local-server dispatch whose HTTP response has status 200
and whose body parses as JSON with a string `response` field, dispatch
returns exactly that field — the value `str s` of the field reaches the
caller unchanged. -/
theorem spec_C5_ollama_success (env : Env) (c : Config) (content prompt s : String)
    (resp : HttpResponse) (j : Json)
    (hty : c.type = "ollama")
    (hpost : env.ollamaPost
        (dictGet c.other_settings "api_url" "http://localhost:11434" ++ "/api/generate")
        (buildOllamaPayload c.model content prompt) = .ok resp)
    (hstatus : resp.status = 200)
    (hparse : env.jsonLoads resp.text = .ok j)
    (hfield : pySubscript j "response" = .ok (.str s)) :
    (send_to_ai env (some c) content prompt).fst = .str s := by
  rw [send_to_ai_ollama env c content prompt hty]
  simp [send_to_ollama, hpost, hstatus, hparse, hfield]

/-- Environment for the C5 witness: the server answers 200 with body
`\x7b"response":"hello"\x7d`, which json.loads parses to the dict with the
single field response = "hello". -/
def envC5 : Env :=
  { openaiCall := fun _ _ => .error "unused"
    ollamaPost := fun _ _ => .ok ⟨200, "\x7b\"response\":\"hello\"\x7d"⟩
    jsonLoads := fun body =>
      if body = "\x7b\"response\":\"hello\"\x7d" then .ok (.obj [("response", .str "hello")])
      else .error "Expecting value: line 1 column 1 (char 0)" }

/-- Concrete ollama configuration for the C5 witness. -/
def cfgC5 : Config := ⟨"ollama", "llama3", "", []⟩

/-- C5 witness: against the concrete 200 / body response = "hello"
environment, dispatch returns `str "hello"`. -/
theorem spec_C5_witness :
    (send_to_ai envC5 (some cfgC5) "hi" "p").fst = .str "hello" :=
  spec_C5_ollama_success envC5 cfgC5 "hi" "p" "hello" ⟨200, "\x7b\"response\":\"hello\"\x7d"⟩
    (.obj [("response", .str "hello")]) rfl rfl rfl rfl rfl

/-- Environment for the C6 counterexample and witness: the server answers
HTTP 500. -/
def envC6 : Env :=
  { openaiCall := fun _ _ => .error "unused"
    ollamaPost := fun _ _ => .ok ⟨500, "Internal Server Error"⟩
    jsonLoads := fun _ => .error "unused" }

/-- Concrete ollama configuration for C6. -/
def cfgC6 : Config := ⟨"ollama", "llama3", "", []⟩

/-- C6 counterexample: on an HTTP 500 response the dispatch result is the
string "Ollama API error: 500", which is not the message
"server error 500" the claim states. -/
theorem spec_C6_counterexample :
    (send_to_ai envC6 (some cfgC6) "hi" "p").fst = .str "Ollama API error: 500" ∧
    "Ollama API error: 500" ≠ "server error 500" :=
  ⟨rfl, by decide⟩

/-- C6 amended: for every local-server dispatch whose HTTP response has a
non-200 status, the adapter raises and the dispatcher returns the failure
message "Ollama API error: <status>", which contains the numeric status
code. -/
theorem spec_C6_amended (env : Env) (c : Config) (content prompt : String)
    (resp : HttpResponse)
    (hty : c.type = "ollama")
    (hpost : env.ollamaPost
        (dictGet c.other_settings "api_url" "http://localhost:11434" ++ "/api/generate")
        (buildOllamaPayload c.model content prompt) = .ok resp)
    (hstatus : resp.status ≠ 200) :
    (send_to_ai env (some c) content prompt).fst =
      .str ("Ollama API error: " ++ toString resp.status) ∧
    ∃ a b, "Ollama API error: " ++ toString resp.status = a ++ toString resp.status ++ b := by
  refine ⟨?_, "Ollama API error: ", "", by simp⟩
  rw [send_to_ai_ollama env c content prompt hty]
  simp [send_to_ollama, hpost, hstatus]

/-- C6 witness: at the concrete 500 response, the amended message with its
embedded status code is returned. -/
theorem spec_C6_witness :
    (send_to_ai envC6 (some cfgC6) "hi" "p").fst =
      .str ("Ollama API error: " ++ toString (500 : Nat)) ∧
    ∃ a b, "Ollama API error: " ++ toString (500 : Nat) = a ++ toString (500 : Nat) ++ b :=
  spec_C6_amended envC6 cfgC6 "hi" "p" ⟨500, "Internal Server Error"⟩ rfl rfl (by decide)

/-- C7: for every local-server dispatch whose HTTP response has status 200
but whose body fails to parse as JSON, dispatch returns the parse error
verbatim (the JSONDecodeError raised by json.loads, stringified at the
catch boundary of the dispatcher); and when the body parses to a dict that
lacks the response field, dispatch returns the KeyError text
`\x27response\x27` — messages distinct from the "Ollama API error: ..."
family of the non-200 (network) failures. -/
theorem spec_C7_protocol_failures (env : Env) (c : Config)
    (content prompt e : String) (resp : HttpResponse) (fields : List (String × Json))
    (hty : c.type = "ollama")
    (hpost : env.ollamaPost
        (dictGet c.other_settings "api_url" "http://localhost:11434" ++ "/api/generate")
        (buildOllamaPayload c.model content prompt) = .ok resp)
    (hstatus : resp.status = 200) :
    (env.jsonLoads resp.text = .error e →
      (send_to_ai env (some c) content prompt).fst = .str e) ∧
    (env.jsonLoads resp.text = .ok (.obj fields) →
      fields.find? (fun kv => kv.fst == "response") = none →
      (send_to_ai env (some c) content prompt).fst = .str "\x27response\x27") := by
  constructor
  · intro hparse
    rw [send_to_ai_ollama env c content prompt hty]
    simp [send_to_ollama, hpost, hstatus, hparse]
  · intro hparse hfind
    rw [send_to_ai_ollama env c content prompt hty]
    simp [send_to_ollama, hpost, hstatus, hparse, pySubscript, hfind]

/-- Environment for the first C7 witness conjunct: status 200 with an
unparsable body. -/
def envC7a : Env :=
  { openaiCall := fun _ _ => .error "unused"
    ollamaPost := fun _ _ => .ok ⟨200, "not json"⟩
    jsonLoads := fun _ => .error "Expecting value: line 1 column 1 (char 0)" }

/-- Environment for the second C7 witness conjunct: status 200 with a JSON
body lacking the response field. -/
def envC7b : Env :=
  { openaiCall := fun _ _ => .error "unused"
    ollamaPost := fun _ _ => .ok ⟨200, "\x7b\"answer\":\"hi\"\x7d"⟩
    jsonLoads := fun _ => .ok (.obj [("answer", .str "hi")]) }

/-- Concrete ollama configuration for C7. -/
def cfgC7 : Config := ⟨"ollama", "llama3", "", []⟩

/-- C7 witness: at a concrete unparsable 200 response the parse error text
is returned, and at a concrete 200 response lacking the response field the
KeyError text is returned. -/
theorem spec_C7_witness :
    (send_to_ai envC7a (some cfgC7) "hi" "p").fst =
      .str "Expecting value: line 1 column 1 (char 0)" ∧
    (send_to_ai envC7b (some cfgC7) "hi" "p").fst = .str "\x27response\x27" :=
  ⟨(spec_C7_protocol_failures envC7a cfgC7 "hi" "p"
      "Expecting value: line 1 column 1 (char 0)" ⟨200, "not json"⟩ [] rfl rfl rfl).1 rfl,
   (spec_C7_protocol_failures envC7b cfgC7 "hi" "p" "unused"
      ⟨200, "\x7b\"answer\":\"hi\"\x7d"⟩ [("answer", .str "hi")] rfl rfl rfl).2 rfl rfl⟩

/-- Environment for the C8 counterexample and witness. -/
def envC8 : Env :=
  { openaiCall := fun _ _ => .ok "an answer"
    ollamaPost := fun _ _ => .ok ⟨200, "\x7b\"response\":\"ok\"\x7d"⟩
    jsonLoads := fun _ => .ok (.obj [("response", .str "ok")]) }

/-- Concrete ollama configuration for C8. -/
def cfgC8 : Config := ⟨"ollama", "llava", "", []⟩

/-- C8 counterexample: a request violating the pairing invariant — the
image-explain instruction paired with a plain text payload "hello world" —
is not stopped by any validation: the adapter is invoked (the network log
has one POST) and a normal runtime result is returned, so dispatch neither
validates the pairing before invoking an adapter nor fails fast on a
violation. -/
theorem spec_C8_counterexample :
    (send_to_ai envC8 (some cfgC8) "hello world" PROMPT_IMAGE).snd.length = 1 ∧
    (send_to_ai envC8 (some cfgC8) "hello world" PROMPT_IMAGE).fst = .str "ok" :=
  ⟨rfl, rfl⟩

/-- C8 amended: dispatch performs no pairing validation at all: for every
content and prompt, paired correctly or not, it forwards the request to the
adapter selected by the configuration type — performing exactly the one
adapter call with the arguments built from that content and prompt — and
the pairing invariant is maintained only by the construction at the call
site in the UI. -/
theorem spec_C8_amended (env : Env) (c : Config) (content prompt : String) :
    (c.type = "openai" →
      (send_to_ai env (some c) content prompt).snd =
        [NetCall.openaiCreate c.model (buildOpenAIMessages content prompt)]) ∧
    (c.type = "ollama" →
      (send_to_ai env (some c) content prompt).snd =
        [NetCall.ollamaPost
          (dictGet c.other_settings "api_url" "http://localhost:11434" ++ "/api/generate")
          (buildOllamaPayload c.model content prompt)]) := by
  constructor
  · intro hty
    rw [send_to_ai_openai env c content prompt hty]
    simp only [send_to_openai]
    rcases env.openaiCall c.model (buildOpenAIMessages content prompt) with e | t <;> rfl
  · intro hty
    rw [send_to_ai_ollama env c content prompt hty, send_to_ollama_log]

/-- Concrete openai configuration for the C8 witness. -/
def cfgC8b : Config := ⟨"openai", "gpt-4o", "sk-test", []⟩

/-- C8 witness: the mismatched request of the counterexample is forwarded
unvalidated to either adapter kind. -/
theorem spec_C8_witness :
    (send_to_ai envC8 (some cfgC8b) "hello world" PROMPT_IMAGE).snd =
      [NetCall.openaiCreate cfgC8b.model (buildOpenAIMessages "hello world" PROMPT_IMAGE)] ∧
    (send_to_ai envC8 (some cfgC8) "hello world" PROMPT_IMAGE).snd =
      [NetCall.ollamaPost
        (dictGet cfgC8.other_settings "api_url" "http://localhost:11434" ++ "/api/generate")
        (buildOllamaPayload cfgC8.model "hello world" PROMPT_IMAGE)] :=
  ⟨(spec_C8_amended envC8 cfgC8b "hello world" PROMPT_IMAGE).1 rfl,
   (spec_C8_amended envC8 cfgC8 "hello world" PROMPT_IMAGE).2 rfl⟩

/-- Environment for the C10 counterexample: the local server answers 200
with the JSON body response = 5, a number rather than a string. -/
def envC10 : Env :=
  { openaiCall := fun _ _ => .error "unused"
    ollamaPost := fun _ _ => .ok ⟨200, "\x7b\"response\": 5\x7d"⟩
    jsonLoads := fun _ => .ok (.obj [("response", .num 5)]) }

/-- Concrete ollama configuration for the C10 counterexample. -/
def cfgC10 : Config := ⟨"ollama", "llama3", "", []⟩

/-- C10 counterexample: with a present configuration and a local server
whose response field is the number 5, `send_to_ai` returns that number, not
a plain string — the "returns a plain string for every configuration" part
of the claim fails. -/
theorem spec_C10_counterexample :
    ((send_to_ai envC10 (some cfgC10) "hi" "p").fst).isStr = false := rfl

/-- Environment for the C10 witness: the hosted client raises "boom". -/
def envC10b : Env :=
  { openaiCall := fun _ _ => .error "boom"
    ollamaPost := fun _ _ => .error "unused"
    jsonLoads := fun _ => .error "unused" }

/-- Concrete openai configuration for the C10 witness. -/
def cfgC10b : Config := ⟨"openai", "gpt-4o", "sk-test", []⟩

/-- C10 amended: `send_to_ai` never raises and always returns a plain
value; for hosted-API (openai) configurations that value is always a plain
string, and a hosted adapter failure is returned as the ordinary string
`"Error communicating with OpenAI: " ++ e`; every dispatch result — genuine
answer or stringified failure alike — reaches the caller through the worker
finished callback together with the elapsed time, and the worker error
callback is never exercised by a dispatch. -/
theorem spec_C10_amended (env : Env) (c : Config) (content prompt e : String)
    (cfg : Option Config) (t0 t1 : Int) :
    (c.type = "openai" →
      ∃ s, (send_to_ai env (some c) content prompt).fst = .str s) ∧
    (c.type = "openai" →
      env.openaiCall c.model (buildOpenAIMessages content prompt) = .error e →
      (send_to_ai env (some c) content prompt).fst =
        .str ("Error communicating with OpenAI: " ++ e)) ∧
    workerDispatch env cfg content prompt t0 t1 =
      [.finished (send_to_ai env cfg content prompt).fst (t1 - t0)] ∧
    countError (workerDispatch env cfg content prompt t0 t1) = 0 := by
  refine ⟨?_, ?_, rfl, rfl⟩
  · intro hty
    rw [send_to_ai_openai env c content prompt hty]
    exact ⟨(send_to_openai env c content prompt).fst, rfl⟩
  · intro hty hcall
    rw [send_to_ai_openai env c content prompt hty]
    simp [send_to_openai, hcall]

/-- C10 witness: at a concrete openai configuration whose hosted call
raises "boom", the amended claim holds: the result is the plain prefixed
error string, delivered as the single finished signal with the elapsed
time. -/
theorem spec_C10_witness :
    (∃ s, (send_to_ai envC10b (some cfgC10b) "hi" "p").fst = .str s) ∧
    (send_to_ai envC10b (some cfgC10b) "hi" "p").fst =
      .str ("Error communicating with OpenAI: " ++ "boom") ∧
    workerDispatch envC10b (some cfgC10b) "hi" "p" 3 10 =
      [.finished (send_to_ai envC10b (some cfgC10b) "hi" "p").fst (10 - 3)] ∧
    countError (workerDispatch envC10b (some cfgC10b) "hi" "p" 3 10) = 0 :=
  ⟨(spec_C10_amended envC10b cfgC10b "hi" "p" "boom" (some cfgC10b) 3 10).1 rfl,
   (spec_C10_amended envC10b cfgC10b "hi" "p" "boom" (some cfgC10b) 3 10).2.1 rfl rfl,
   (spec_C10_amended envC10b cfgC10b "hi" "p" "boom" (some cfgC10b) 3 10).2.2⟩

end ClipboardAI
